import Mathlib

/-!
Shallow embedding of `src/utils/pixelTracking.js`: a debounced Meta-Pixel
"Contact" event dispatcher and a phone-call handler.

Modelling conventions:
* The browser global `window._lastContactTrackTime` is an `Option Int`
  (milliseconds since epoch; `none` = property never set).
* `Date.now()` and the availability of `window.fbq` are inputs to each call
  (`now : Int`, `fbqPresent : Bool`).
* Every externally observable action (console output, a call to the `fbq`
  hook, invoking an event method, scheduling the `tel:` navigation) is
  recorded as an `Effect` in program order.
-/

/-- Externally observable actions of one call, in program order. -/
inductive Effect where
  | consoleLog (msg : String)
  | consoleWarn (msg : String)
  | consoleError (msg : String)
  | fbqCall (action : String) (eventName : String) (value : String) (currency : String)
  | scheduleNav (delayMs : Nat) (url : String)
  | preventDefault
  | stopPropagation
  deriving DecidableEq, Repr

/-- `const getGlobalLastTrackTime = () => window._lastContactTrackTime || 0;`
(`undefined || 0` and `0 || 0` both evaluate to `0`). -/
def getGlobalLastTrackTime (w : Option Int) : Int :=
  w.getD 0

/-- `const TRACK_DEBOUNCE_MS = 1000;` -/
def TRACK_DEBOUNCE_MS : Int := 1000

/-- The warning logged when the double-fire guard suppresses a dispatch. -/
def debounceWarnMsg (elapsed : Int) : String :=
  "FB Pixel: \"Contact\" event PREVENTED (double-fire guard). Elapsed: "
    ++ toString elapsed ++ "ms"

/-- The error logged when `window.fbq` is not a function. -/
def fbqMissingMsg : String :=
  "FB Pixel: fbq function not found on window! Ensure Pixel script is in index.html and not blocked."

/-- `value.toFixed(2)`: the number rendered with exactly two digits after the
decimal point, ties on the third decimal rounded up in magnitude, a leading
`-` for negative inputs (the JS value is modelled as an exact rational). -/
def toFixed2 (q : ℚ) : String :=
  let n : Nat := (q.num.natAbs * 200 + q.den) / (2 * q.den)
  let s := toString (n / 100) ++ "." ++
    (if n % 100 < 10 then "0" ++ toString (n % 100) else toString (n % 100))
  if q < 0 then "-" ++ s else s

/-- `export const trackContactEvent = (value = 1.00, currency = 'USD') => ...`.
Returns the new value of `window._lastContactTrackTime` and the effects, in
program order.  `setGlobalLastTrackTime(currentTime)` is the `some currentTime`
in the success branch. -/
def trackContactEvent (value : ℚ) (currency : String) (fbqPresent : Bool)
    (now : Int) (w : Option Int) : Option Int × List Effect :=
  let currentTime := now
  let lastTrackTime := getGlobalLastTrackTime w
  if currentTime - lastTrackTime < TRACK_DEBOUNCE_MS then
    (w, [Effect.consoleWarn (debounceWarnMsg (currentTime - lastTrackTime))])
  else if fbqPresent then
    (some currentTime,
     [Effect.consoleLog ("FB Pixel: Manual TRACK \"Contact\" | Value: "
        ++ toFixed2 value ++ " | Currency: " ++ currency),
      Effect.fbqCall "track" "Contact" (toFixed2 value) currency])
  else
    (w, [Effect.consoleError fbqMissingMsg])

/-- A click-event-like object; the booleans record whether
`typeof e.preventDefault === 'function'` resp. `stopPropagation`. -/
structure EventObj where
  hasPreventDefault : Bool
  hasStopPropagation : Bool
  deriving DecidableEq, Repr

/-- Membership test for the regex character class `[\s-()]` used by
`phoneNumber.replace(/[\s-()]/g, '')`: JavaScript `\s` (whitespace) plus
the literal characters `-`, `(`, `)`. -/
def isStrippedChar (c : Char) : Bool :=
  c == ' ' || c == '\t' || c == '\n' || c == '\x0b' || c == '\x0c' || c == '\r' ||
  c == '\u00A0' || c == '\u1680' || ('\u2000' ≤ c && c ≤ '\u200A') ||
  c == '\u2028' || c == '\u2029' || c == '\u202F' || c == '\u205F' ||
  c == '\u3000' || c == '\uFEFF' ||
  c == '-' || c == '(' || c == ')' 

/-- `const cleanNumber = phoneNumber.replace(/[\s-()]/g, '');` -/
def cleanNumber (phoneNumber : String) : String :=
  String.mk (phoneNumber.toList.filter (fun c => !isStrippedChar c))

/-- `if (e) { if (typeof e.preventDefault === 'function') e.preventDefault();
if (typeof e.stopPropagation === 'function') e.stopPropagation(); }` -/
def evSuppressFx (e : Option EventObj) : List Effect :=
  match e with
  | none => []
  | some ev =>
      (if ev.hasPreventDefault then [Effect.preventDefault] else []) ++
      (if ev.hasStopPropagation then [Effect.stopPropagation] else [])

/-- `export const handlePhoneCall = (phoneNumber, e = null) => ...`.
Returns the new guard value and the effects in program order: the entry log,
the optional event suppression, the synchronous `trackContactEvent()` call
(default value `1.00`, currency `'USD'`), the redirect log, and finally the
`setTimeout(..., 100)` navigation to `tel:<cleanNumber>`. -/
def handlePhoneCall (phoneNumber : String) (e : Option EventObj)
    (fbqPresent : Bool) (now : Int) (w : Option Int) : Option Int × List Effect :=
  let l0 := Effect.consoleLog ("FB Pixel: handlePhoneCall triggered for " ++ phoneNumber)
  let evFx : List Effect := evSuppressFx e
  let r := trackContactEvent 1 "USD" fbqPresent now w
  let cn := cleanNumber phoneNumber
  (r.1,
   l0 :: evFx ++ r.2 ++
     [Effect.consoleLog ("FB Pixel: Redirecting to tel:" ++ cn ++ " shortly..."),
      Effect.scheduleNav 100 ("tel:" ++ cn)])

/-- Invoking a JavaScript value as a function: raises `TypeError` when the
value is not callable.  Used to model what calling an event method without
the `typeof` probe would do. -/
def jsInvoke (isFunction : Bool) (fx : Effect) : Except String (List Effect) :=
  if isFunction then Except.ok [fx] else Except.error "TypeError: not a function"

/-- `handlePhoneCall` with JavaScript call semantics made explicit: each event
method is invoked through `jsInvoke` (which can raise), but only behind the
same `typeof` probes as the source, so the probes are what keeps the
operation exception-free. -/
def handlePhoneCallE (phoneNumber : String) (e : Option EventObj)
    (fbqPresent : Bool) (now : Int) (w : Option Int) :
    Except String (Option Int × List Effect) := do
  let l0 := Effect.consoleLog ("FB Pixel: handlePhoneCall triggered for " ++ phoneNumber)
  let evFx : List Effect ←
    match e with
    | none => pure []
    | some ev => do
        let a ← if ev.hasPreventDefault then jsInvoke ev.hasPreventDefault Effect.preventDefault
                else pure []
        let b ← if ev.hasStopPropagation then jsInvoke ev.hasStopPropagation Effect.stopPropagation
                else pure []
        pure (a ++ b)
  let r := trackContactEvent 1 "USD" fbqPresent now w
  let cn := cleanNumber phoneNumber
  pure (r.1,
    l0 :: evFx ++ r.2 ++
      [Effect.consoleLog ("FB Pixel: Redirecting to tel:" ++ cn ++ " shortly..."),
       Effect.scheduleNav 100 ("tel:" ++ cn)])

/-- Abstraction of `new Date(t).toLocaleTimeString()`: an opaque,
locale-dependent rendering; no claim depends on its content. -/
def toLocaleTimeString (t : Int) : String :=
  toString t

/-- How `console.log` renders `window._lastContactTrackTime` itself. -/
def rawGuardString (w : Option Int) : String :=
  match w with
  | none => "undefined"
  | some t => toString t

/-- `window.checkPixelStatus = () => ...`: logs the status lines and returns
the literal `'Check complete'`.  Result: (new guard value, return value,
effects). -/
def checkPixelStatus (fbqPresent : Bool) (w : Option Int) :
    Option Int × String × List Effect :=
  (w, "Check complete",
   [Effect.consoleLog "--- Pixel Status Check ---",
    Effect.consoleLog ("fbq available: " ++ toString fbqPresent),
    Effect.consoleLog ("Last track time: " ++ toLocaleTimeString (getGlobalLastTrackTime w)),
    Effect.consoleLog ("Global guard: " ++ rawGuardString w),
    Effect.consoleLog "--------------------------"])

/-- Is an effect a dispatch to the tracking hook? -/
def isDispatch : Effect → Bool
  | Effect.fbqCall _ _ _ _ => true
  | _ => false

/-- Number of dispatches to the tracking hook in an effect list. -/
def dispatchCount (fx : List Effect) : Nat :=
  (fx.filter isDispatch).length

/-- The dispatches in an effect list, as (action, eventName, value, currency). -/
def dispatches (fx : List Effect) : List (String × String × String × String) :=
  fx.filterMap fun x =>
    match x with
    | Effect.fbqCall a n v c => some (a, n, v, c)
    | _ => none

/-- Effects that can only come from the body of `trackContactEvent`
(each of its three branches emits exactly one of these). -/
def isTrackMarker : Effect → Bool
  | Effect.consoleWarn _ => true
  | Effect.consoleError _ => true
  | Effect.fbqCall _ _ _ _ => true
  | _ => false

/-- Is an effect a scheduled navigation? -/
def isNav : Effect → Bool
  | Effect.scheduleNav _ _ => true
  | _ => false

/-- Is an effect a plain console log line? -/
def isConsoleLog : Effect → Bool
  | Effect.consoleLog _ => true
  | _ => false

/-- One public operation of the component. -/
inductive Op where
  | track (value : ℚ) (currency : String)
  | phoneCall (phoneNumber : String) (e : Option EventObj)
  | checkStatus
  deriving Repr

/-- Run one public operation in environment (`fbqPresent`, `now`). -/
def runOp (fbqPresent : Bool) (now : Int) (op : Op) (w : Option Int) :
    Option Int × List Effect :=
  match op with
  | Op.track v c => trackContactEvent v c fbqPresent now w
  | Op.phoneCall p e => handlePhoneCall p e fbqPresent now w
  | Op.checkStatus => ((checkPixelStatus fbqPresent w).1, (checkPixelStatus fbqPresent w).2.2)

/-- Run a sequence of public operations, each with its own environment. -/
def runOps (calls : List (Bool × Int × Op)) (w : Option Int) : Option Int × List Effect :=
  match calls with
  | [] => (w, [])
  | (fbq, now, op) :: rest =>
      let r := runOp fbq now op w
      let s := runOps rest r.1
      (s.1, r.2 ++ s.2)

/-- Run a sequence of `trackContactEvent` calls (time, value, currency), with
the hook available throughout; returns the final guard value and the number
of dispatches each call produced. -/
def runTrackCalls (calls : List (Int × ℚ × String)) (w : Option Int) :
    Option Int × List Nat :=
  match calls with
  | [] => (w, [])
  | (t, v, c) :: rest =>
      let r := trackContactEvent v c true t w
      let s := runTrackCalls rest r.1
      (s.1, dispatchCount r.2 :: s.2)

/-- Are the given call times each at least `TRACK_DEBOUNCE_MS` after the
previous one (`prev` playing the role of the last accepted time)? -/
def spacedFrom (prev : Int) : List Int → Bool
  | [] => true
  | t :: rest => (TRACK_DEBOUNCE_MS ≤ t - prev) && spacedFrom t rest

/-! ## Branch equations for `trackContactEvent` -/

theorem trackContactEvent_debounced (v : ℚ) (c : String) (fbq : Bool) (now : Int)
    (w : Option Int) (h : now - getGlobalLastTrackTime w < TRACK_DEBOUNCE_MS) :
    trackContactEvent v c fbq now w =
      (w, [Effect.consoleWarn (debounceWarnMsg (now - getGlobalLastTrackTime w))]) := by
  simp [trackContactEvent, h]

theorem trackContactEvent_hooked (v : ℚ) (c : String) (now : Int) (w : Option Int)
    (h : ¬(now - getGlobalLastTrackTime w < TRACK_DEBOUNCE_MS)) :
    trackContactEvent v c true now w =
      (some now,
       [Effect.consoleLog ("FB Pixel: Manual TRACK \"Contact\" | Value: "
          ++ toFixed2 v ++ " | Currency: " ++ c),
        Effect.fbqCall "track" "Contact" (toFixed2 v) c]) := by
  simp [trackContactEvent, h]

theorem trackContactEvent_noHook (v : ℚ) (c : String) (now : Int) (w : Option Int)
    (h : ¬(now - getGlobalLastTrackTime w < TRACK_DEBOUNCE_MS)) :
    trackContactEvent v c false now w = (w, [Effect.consoleError fbqMissingMsg]) := by
  simp [trackContactEvent, h]

/-- The value of `toFixed2` at the concrete input `5/2`. -/
theorem toFixed2_five_halves : toFixed2 (5/2) = "2.50" := by
  have h1 : ((5:ℚ)/2).num = 5 := by norm_num
  have h2 : ((5:ℚ)/2).den = 2 := by norm_num
  have h3 : ¬((5:ℚ)/2 < 0) := by norm_num
  simp only [toFixed2, h1, h2, if_neg h3]
  rfl

/-! ## Claims -/

/-- Claim C1: when the current time minus `LastTrackTime` is strictly below
the 1000ms debounce window, the call is a no-op apart from the diagnostic
warning: no event is dispatched to the tracking hook and the stored
`LastTrackTime` is unchanged. -/
theorem track_debounced_is_noop (v : ℚ) (c : String) (fbq : Bool) (now : Int)
    (w : Option Int) (h : now - getGlobalLastTrackTime w < TRACK_DEBOUNCE_MS) :
    (trackContactEvent v c fbq now w).1 = w ∧
    dispatchCount (trackContactEvent v c fbq now w).2 = 0 ∧
    (trackContactEvent v c fbq now w).2 =
      [Effect.consoleWarn (debounceWarnMsg (now - getGlobalLastTrackTime w))] := by
  rw [trackContactEvent_debounced v c fbq now w h]
  exact ⟨rfl, rfl, rfl⟩

theorem track_debounced_is_noop_witness :
    ((500:Int) - getGlobalLastTrackTime (some 0) < TRACK_DEBOUNCE_MS) ∧
    ((trackContactEvent 1 "USD" true 500 (some 0)).1 = some 0 ∧
     dispatchCount (trackContactEvent 1 "USD" true 500 (some 0)).2 = 0) :=
  ⟨by decide,
   (track_debounced_is_noop 1 "USD" true 500 (some 0) (by decide)).1,
   (track_debounced_is_noop 1 "USD" true 500 (some 0) (by decide)).2.1⟩

/-- Claim C2: when the debounce check passes and the hook is callable, the
hook is invoked exactly once with action `"track"`, event `"Contact"` and
payload (value formatted to two decimals as a string, the given currency),
and `LastTrackTime` is set to the time computed at the start of the call. -/
theorem track_dispatches_once (v : ℚ) (c : String) (now : Int) (w : Option Int)
    (h : ¬(now - getGlobalLastTrackTime w < TRACK_DEBOUNCE_MS)) :
    (trackContactEvent v c true now w).1 = some now ∧
    dispatches (trackContactEvent v c true now w).2 =
      [("track", "Contact", toFixed2 v, c)] := by
  rw [trackContactEvent_hooked v c now w h]
  exact ⟨rfl, rfl⟩

theorem track_dispatches_once_witness :
    (¬((1000:Int) - getGlobalLastTrackTime none < TRACK_DEBOUNCE_MS)) ∧
    ((trackContactEvent (5/2) "EUR" true 1000 none).1 = some 1000 ∧
     dispatches (trackContactEvent (5/2) "EUR" true 1000 none).2 =
       [("track", "Contact", "2.50", "EUR")]) := by
  have h : ¬((1000:Int) - getGlobalLastTrackTime none < TRACK_DEBOUNCE_MS) := by decide
  have h2 := track_dispatches_once (5/2) "EUR" 1000 none h
  exact ⟨h, h2.1, by rw [h2.2, toFixed2_five_halves]⟩

/-- Claim C3: when the debounce check passes but the tracking hook is absent,
no dispatch occurs, a diagnostic error is logged, and `LastTrackTime` is
unchanged, so a later attempt is not wrongly suppressed. -/
theorem track_missing_hook_noop (v : ℚ) (c : String) (now : Int) (w : Option Int)
    (h : ¬(now - getGlobalLastTrackTime w < TRACK_DEBOUNCE_MS)) :
    (trackContactEvent v c false now w).1 = w ∧
    dispatchCount (trackContactEvent v c false now w).2 = 0 ∧
    (trackContactEvent v c false now w).2 = [Effect.consoleError fbqMissingMsg] := by
  rw [trackContactEvent_noHook v c now w h]
  exact ⟨rfl, rfl, rfl⟩

theorem track_missing_hook_noop_witness :
    (¬((1500:Int) - getGlobalLastTrackTime (some 0) < TRACK_DEBOUNCE_MS)) ∧
    ((trackContactEvent 1 "USD" false 1500 (some 0)).1 = some 0 ∧
     dispatchCount (trackContactEvent 1 "USD" false 1500 (some 0)).2 = 0) :=
  ⟨by decide,
   (track_missing_hook_noop 1 "USD" 1500 (some 0) (by decide)).1,
   (track_missing_hook_noop 1 "USD" 1500 (some 0) (by decide)).2.1⟩

/-! ## Effect-order facts for `handlePhoneCall` -/

theorem handlePhoneCall_fx (p : String) (e : Option EventObj) (fbq : Bool)
    (now : Int) (w : Option Int) :
    (handlePhoneCall p e fbq now w).2 =
      Effect.consoleLog ("FB Pixel: handlePhoneCall triggered for " ++ p) ::
        ((evSuppressFx e ++ (trackContactEvent 1 "USD" fbq now w).2) ++
          [Effect.consoleLog ("FB Pixel: Redirecting to tel:" ++ cleanNumber p ++ " shortly..."),
           Effect.scheduleNav 100 ("tel:" ++ cleanNumber p)]) := rfl

theorem trackFx_marker (v : ℚ) (c : String) (fbq : Bool) (now : Int) (w : Option Int) :
    ∃ off x, ((trackContactEvent v c fbq now w).2)[off]? = some x ∧
      isTrackMarker x = true ∧ off < ((trackContactEvent v c fbq now w).2).length := by
  by_cases h : now - getGlobalLastTrackTime w < TRACK_DEBOUNCE_MS
  · rw [trackContactEvent_debounced v c fbq now w h]
    exact ⟨0, _, rfl, rfl, by simp⟩
  · cases fbq
    · rw [trackContactEvent_noHook v c now w h]
      exact ⟨0, _, rfl, rfl, by simp⟩
    · rw [trackContactEvent_hooked v c now w h]
      exact ⟨1, _, rfl, rfl, by simp⟩

/-- Claim C4: in `handlePhoneCall` the effects occur in order: any event
suppression (`preventDefault`/`stopPropagation`, each when present) first,
then the synchronous tracking attempt, and only after it the navigation to
`tel:<dialable>` scheduled with a fixed 100ms delay. -/
theorem phoneCall_effect_order (p : String) (e : Option EventObj) (fbq : Bool)
    (now : Int) (w : Option Int) :
    ∃ i j : ℕ, i < j ∧
      (∃ x, ((handlePhoneCall p e fbq now w).2)[i]? = some x ∧ isTrackMarker x = true) ∧
      ((handlePhoneCall p e fbq now w).2)[j]? =
        some (Effect.scheduleNav 100 ("tel:" ++ cleanNumber p)) ∧
      ∀ ev, e = some ev →
        (ev.hasPreventDefault = true →
          ∃ k : ℕ, k < i ∧ ((handlePhoneCall p e fbq now w).2)[k]? = some Effect.preventDefault) ∧
        (ev.hasStopPropagation = true →
          ∃ k : ℕ, k < i ∧ ((handlePhoneCall p e fbq now w).2)[k]? = some Effect.stopPropagation) := by
  obtain ⟨off, x, hoff, hx, hlt⟩ := trackFx_marker 1 "USD" fbq now w
  refine ⟨((evSuppressFx e).length + off) + 1,
          ((evSuppressFx e).length + (trackContactEvent 1 "USD" fbq now w).2.length + 1) + 1,
          by omega, ⟨x, ?_, hx⟩, ?_, ?_⟩
  · rw [handlePhoneCall_fx]
    rw [List.getElem?_cons_succ, List.getElem?_append_left (by simp; omega),
        List.getElem?_append_right (by omega)]
    simpa using hoff
  · rw [handlePhoneCall_fx]
    rw [List.getElem?_cons_succ, List.getElem?_append_right (by simp)]
    simp
  · intro ev heq
    subst heq
    constructor
    · intro hpd
      have hL : 1 ≤ (evSuppressFx (some ev)).length := by simp [evSuppressFx, hpd]
      refine ⟨1, by omega, ?_⟩
      rw [handlePhoneCall_fx]
      rw [List.getElem?_cons_succ, List.getElem?_append_left (by simp; omega),
          List.getElem?_append_left (by omega)]
      simp [evSuppressFx, hpd]
    · intro hsp
      cases hpd : ev.hasPreventDefault
      · have hL : (evSuppressFx (some ev)).length = 1 := by simp [evSuppressFx, hpd, hsp]
        refine ⟨1, by omega, ?_⟩
        rw [handlePhoneCall_fx]
        rw [List.getElem?_cons_succ, List.getElem?_append_left (by simp; omega),
            List.getElem?_append_left (by omega)]
        simp [evSuppressFx, hpd, hsp]
      · have hL : (evSuppressFx (some ev)).length = 2 := by simp [evSuppressFx, hpd, hsp]
        refine ⟨2, by omega, ?_⟩
        rw [handlePhoneCall_fx]
        rw [List.getElem?_cons_succ, List.getElem?_append_left (by simp; omega),
            List.getElem?_append_left (by omega)]
        simp [evSuppressFx, hpd, hsp]

theorem phoneCall_effect_order_witness :
    ∃ i : ℕ, ∃ k : ℕ, k < i ∧
      ((handlePhoneCall "+1 (833) 549-4113" (some ⟨true, true⟩) true 5000 none).2)[k]? =
        some Effect.preventDefault := by
  obtain ⟨i, j, _, _, _, hev⟩ :=
    phoneCall_effect_order "+1 (833) 549-4113" (some ⟨true, true⟩) true 5000 none
  exact ⟨i, (hev ⟨true, true⟩ rfl).1 rfl⟩

/-- Claim C5: `handlePhoneCall` strips JavaScript whitespace and the
characters `-`, `(`, `)` from the phone number and schedules the navigation
at `tel:` followed by the stripped string; at the concrete input
`"+1 (833) 549-4113"` the dialable string is `"+18335494113"`. -/
theorem phoneCall_nav_target :
    (∀ (p : String) (e : Option EventObj) (fbq : Bool) (now : Int) (w : Option Int),
      Effect.scheduleNav 100
          ("tel:" ++ String.mk (p.toList.filter (fun ch => !isStrippedChar ch))) ∈
        (handlePhoneCall p e fbq now w).2) ∧
    cleanNumber "+1 (833) 549-4113" = "+18335494113" := by
  constructor
  · intro p e fbq now w
    rw [handlePhoneCall_fx]
    have hcn : String.mk (p.toList.filter (fun ch => !isStrippedChar ch)) = cleanNumber p := rfl
    rw [hcn]
    simp
  · decide

/-- Claim C9: the navigation to the `tel:` URI is scheduled exactly once on
every call to `handlePhoneCall`, also when the dispatch was suppressed by
the debounce guard or the tracking hook was absent. -/
theorem phoneCall_always_schedules_nav (p : String) (e : Option EventObj)
    (fbq : Bool) (now : Int) (w : Option Int) :
    ((handlePhoneCall p e fbq now w).2).filter isNav =
      [Effect.scheduleNav 100 ("tel:" ++ cleanNumber p)] := by
  rw [handlePhoneCall_fx]
  have h1 : (evSuppressFx e).filter isNav = [] := by
    rcases e with _ | ⟨pd, sp⟩
    · rfl
    · cases pd <;> cases sp <;> rfl
  have h2 : ((trackContactEvent 1 "USD" fbq now w).2).filter isNav = [] := by
    by_cases h : now - getGlobalLastTrackTime w < TRACK_DEBOUNCE_MS
    · rw [trackContactEvent_debounced 1 "USD" fbq now w h]; rfl
    · cases fbq
      · rw [trackContactEvent_noHook 1 "USD" now w h]; rfl
      · rw [trackContactEvent_hooked 1 "USD" now w h]; rfl
  simp [List.filter_append, h1, h2, isNav]

/-- Claim C8: the public operations never raise: with JavaScript call
semantics made explicit, `handlePhoneCall` always returns `ok`, because each
event capability is probed before it is invoked — also when the event object
lacks `preventDefault` and/or `stopPropagation`. -/
theorem public_ops_never_throw (p : String) (e : Option EventObj) (fbq : Bool)
    (now : Int) (w : Option Int) :
    handlePhoneCallE p e fbq now w = Except.ok (handlePhoneCall p e fbq now w) := by
  rcases e with _ | ⟨pd, sp⟩
  · rfl
  · cases pd <;> cases sp <;> rfl

/-- Claim C10: `checkPixelStatus` always returns the literal string
`"Check complete"`, leaves `LastTrackTime` unchanged, and its only effects
are console log lines (no dispatch, no navigation, no mutation). -/
theorem checkPixelStatus_pure (fbq : Bool) (w : Option Int) :
    (checkPixelStatus fbq w).2.1 = "Check complete" ∧
    (checkPixelStatus fbq w).1 = w ∧
    ((checkPixelStatus fbq w).2.2).all isConsoleLog = true :=
  ⟨rfl, rfl, rfl⟩

/-- Claim C6: with the hook available, calls to the tracker spaced at least
`TRACK_DEBOUNCE_MS` apart (the stored timestamp playing the role of the call
before the first) each produce exactly one dispatch. -/
theorem spaced_calls_dispatch_once (calls : List (Int × ℚ × String)) (w : Option Int)
    (h : spacedFrom (getGlobalLastTrackTime w) (calls.map (fun x => x.1)) = true) :
    (runTrackCalls calls w).2 = calls.map (fun _ => 1) := by
  induction calls generalizing w with
  | nil => rfl
  | cons hd tl ih =>
    obtain ⟨t, v, c⟩ := hd
    simp only [List.map_cons, spacedFrom, Bool.and_eq_true, decide_eq_true_eq] at h
    have hnd : ¬(t - getGlobalLastTrackTime w < TRACK_DEBOUNCE_MS) := not_lt.mpr h.1
    simp only [runTrackCalls, trackContactEvent_hooked v c t w hnd, List.map_cons]
    exact congrArg₂ List.cons rfl (ih (some t) h.2)

theorem spaced_calls_dispatch_once_witness :
    spacedFrom (getGlobalLastTrackTime none)
        (([((1000:Int), (1:ℚ), "USD"), ((2500:Int), (1:ℚ), "USD")]).map (fun x => x.1)) = true ∧
    (runTrackCalls [((1000:Int), (1:ℚ), "USD"), ((2500:Int), (1:ℚ), "USD")] none).2 = [1, 1] := by
  have h : spacedFrom (getGlobalLastTrackTime none)
      (([((1000:Int), (1:ℚ), "USD"), ((2500:Int), (1:ℚ), "USD")]).map (fun x => x.1)) = true := by
    decide
  refine ⟨h, ?_⟩
  rw [spaced_calls_dispatch_once _ none h]
  rfl

/-! ## State-invariant lemmas -/

theorem evSuppressFx_no_dispatch (e : Option EventObj) :
    (evSuppressFx e).filter isDispatch = [] := by
  rcases e with _ | ⟨pd, sp⟩
  · rfl
  · cases pd <;> cases sp <;> rfl

theorem handlePhoneCall_state (p : String) (e : Option EventObj) (fbq : Bool)
    (now : Int) (w : Option Int) :
    (handlePhoneCall p e fbq now w).1 = (trackContactEvent 1 "USD" fbq now w).1 := rfl

theorem handlePhoneCall_dispatchCount (p : String) (e : Option EventObj) (fbq : Bool)
    (now : Int) (w : Option Int) :
    dispatchCount (handlePhoneCall p e fbq now w).2 =
      dispatchCount (trackContactEvent 1 "USD" fbq now w).2 := by
  rw [handlePhoneCall_fx]
  simp [dispatchCount, List.filter_append, evSuppressFx_no_dispatch, isDispatch]

theorem track_state_of_no_dispatch (v : ℚ) (c : String) (fbq : Bool) (now : Int)
    (w : Option Int) (h : dispatchCount (trackContactEvent v c fbq now w).2 = 0) :
    (trackContactEvent v c fbq now w).1 = w := by
  by_cases hd : now - getGlobalLastTrackTime w < TRACK_DEBOUNCE_MS
  · rw [trackContactEvent_debounced v c fbq now w hd]
  · cases fbq
    · rw [trackContactEvent_noHook v c now w hd]
    · rw [trackContactEvent_hooked v c now w hd] at h
      simp [dispatchCount, isDispatch] at h

theorem track_mono (v : ℚ) (c : String) (fbq : Bool) (now : Int) (w : Option Int) :
    getGlobalLastTrackTime w ≤ getGlobalLastTrackTime (trackContactEvent v c fbq now w).1 := by
  by_cases hd : now - getGlobalLastTrackTime w < TRACK_DEBOUNCE_MS
  · rw [trackContactEvent_debounced v c fbq now w hd]
  · cases fbq
    · rw [trackContactEvent_noHook v c now w hd]
    · rw [trackContactEvent_hooked v c now w hd]
      have h1 : TRACK_DEBOUNCE_MS ≤ now - getGlobalLastTrackTime w := not_lt.mp hd
      have h2 : (0:Int) < TRACK_DEBOUNCE_MS := by decide
      show getGlobalLastTrackTime w ≤ getGlobalLastTrackTime (some now)
      show getGlobalLastTrackTime w ≤ now
      linarith

theorem runOp_mono (fbq : Bool) (now : Int) (op : Op) (w : Option Int) :
    getGlobalLastTrackTime w ≤ getGlobalLastTrackTime (runOp fbq now op w).1 := by
  cases op with
  | track v c => exact track_mono v c fbq now w
  | phoneCall p e => exact track_mono 1 "USD" fbq now w
  | checkStatus => exact le_refl _

/-- Claim C7: the stored timestamp defaults to 0, is mutated only by a call
that actually dispatches (debounce passed and hook present), and is
monotonically nondecreasing across any sequence of public operations. -/
theorem lastTrackTime_invariants :
    getGlobalLastTrackTime none = 0 ∧
    (∀ (fbq : Bool) (now : Int) (op : Op) (w : Option Int),
      dispatchCount (runOp fbq now op w).2 = 0 → (runOp fbq now op w).1 = w) ∧
    (∀ (calls : List (Bool × Int × Op)) (w : Option Int),
      getGlobalLastTrackTime w ≤ getGlobalLastTrackTime (runOps calls w).1) := by
  refine ⟨rfl, ?_, ?_⟩
  · intro fbq now op w h
    cases op with
    | track v c => exact track_state_of_no_dispatch v c fbq now w h
    | phoneCall p e =>
        have hc : dispatchCount (trackContactEvent 1 "USD" fbq now w).2 = 0 := by
          rw [← handlePhoneCall_dispatchCount p e fbq now w]
          exact h
        show (handlePhoneCall p e fbq now w).1 = w
        rw [handlePhoneCall_state]
        exact track_state_of_no_dispatch 1 "USD" fbq now w hc
    | checkStatus => rfl
  · intro calls
    induction calls with
    | nil => intro w; exact le_refl _
    | cons hd tl ih =>
        intro w
        obtain ⟨fbq, now, op⟩ := hd
        exact le_trans (runOp_mono fbq now op w) (ih (runOp fbq now op w).1)

theorem lastTrackTime_invariants_witness :
    dispatchCount (runOp false 2000 (Op.track 1 "USD") (some 0)).2 = 0 ∧
    (runOp false 2000 (Op.track 1 "USD") (some 0)).1 = some 0 :=
  ⟨by decide,
   lastTrackTime_invariants.2.1 false 2000 (Op.track 1 "USD") (some 0) (by decide)⟩
